import Mathlib

/-!
Verification of the plugin registry / execution pipeline of the AI playground
repository (SvelteKit + plugins).  The TypeScript sources are shallowly
embedded: JSON-like runtime values become the inductive type `Value`,
asynchronous functions become pure functions threading an explicit `World`
(the external network/clock oracle) and a `Log` (console output), and thrown
JavaScript errors become `Except` errors.

Modelling conventions, stated once here:
* JS records (`Record<string, ...>`, parsed JSON bodies) are association
  lists inside `Value.vObj`; property lookup is own-property lookup
  (prototype-inherited keys such as "constructor" are out of model scope).
  Property access on `null` throws in JS; it is modelled as `undefined`
  (`none`) — no claim exercises that corner.
* JS numbers are modelled as `Int`: every numeric constant in the sources,
  in the schemas and in the claims is an integer, and the one fractional
  intermediate (the Fahrenheit conversion) is rounded exactly on integers.
  Fractional JSON inputs and NaN/Infinity are outside the model.
* `console.*` output and the plugin logger are modelled as a `Log` (list of
  rendered lines) threaded through execution.
-/

/-- Runtime JSON-like JavaScript values (parameters, configuration,
environment records, tool results and HTTP bodies). -/
inductive Value where
  | vNull : Value
  | vBool : Bool → Value
  | vNum : Int → Value
  | vStr : String → Value
  | vArr : List Value → Value
  | vObj : List (String × Value) → Value

/-- First-match lookup in an object's field list (JSON object keys are
assumed unique, as produced by JSON.parse). -/
def objGet (fs : List (String × Value)) (k : String) : Option Value :=
  (fs.find? (fun p => p.1 == k)).map (fun p => p.2)

/-- Property access `v[k]` / `v.k`.  Own-property lookup on objects;
`undefined` on every other value (see the header for the null corner). -/
def Value.getProp : Value → String → Option Value
  | .vObj fs, k => objGet fs k
  | _, _ => none

/-- JS truthiness of a value. -/
def jsTruthy : Value → Bool
  | .vNull => false
  | .vBool b => b
  | .vNum q => !(q == 0)
  | .vStr s => !(s == "")
  | .vArr _ => true
  | .vObj _ => true

/-- JS truthiness where `none` stands for `undefined`. -/
def jsTruthyOpt : Option Value → Bool
  | none => false
  | some v => jsTruthy v

/-- JS falsiness where `none` stands for `undefined` (the `!x` test). -/
def jsFalsyOpt (v : Option Value) : Bool := !(jsTruthyOpt v)

/-- The JS `x || d` default: `x` when present and truthy, otherwise `d`. -/
def jsOrD (v : Option Value) (d : Value) : Value :=
  match v with
  | some x => if jsTruthy x then x else d
  | none => d

/-- JS strict equality `s === v` between a known string and a value. -/
def jsEqStrV (s : String) (v : Value) : Bool :=
  match v with
  | .vStr t => s == t
  | _ => false

/-- Rendering of a JS number by string interpolation (exact: the model
restricts JS numbers to integers). -/
def jsNumToString (q : Int) : String := toString q

mutual

/-- Rendering `String(v)` / template-literal interpolation of a value. -/
def jsDisplay : Value → String
  | .vNull => "null"
  | .vBool true => "true"
  | .vBool false => "false"
  | .vNum q => jsNumToString q
  | .vStr s => s
  | .vObj _ => "[object Object]"
  | .vArr xs => jsDisplayArr xs

/-- Rendering of an array: elements joined by commas, `null` rendered
empty (Array.prototype.join semantics). -/
def jsDisplayArr : List Value → String
  | [] => ""
  | [x] => (match x with | .vNull => "" | v => jsDisplay v)
  | x :: y :: t =>
      (match x with | .vNull => "" | v => jsDisplay v) ++ "," ++ jsDisplayArr (y :: t)

end

/-- Rendering where `none` stands for `undefined` (URLSearchParams and
template literals stringify `undefined` as "undefined"). -/
def jsDisplayOpt : Option Value → String
  | none => "undefined"
  | some v => jsDisplay v

/-- ToNumber on a string, modelled on the decimal-digit fragment: blank
strings give 0, digit strings their value, anything else NaN (`none`). -/
def parseJsNumber (s : String) : Option Int :=
  let t := s.trim
  if t.isEmpty then some 0
  else if t.data.all (fun c => c.isDigit) then
    match t.toNat? with
    | some n => some (n : Int)
    | none => none
  else none

/-- ToNumber coercion of a value; `none` is NaN. -/
def jsToNumber : Value → Option Int
  | .vNull => some 0
  | .vBool b => some (if b then 1 else 0)
  | .vNum q => some q
  | .vStr s => parseJsNumber s
  | .vArr xs => parseJsNumber (jsDisplayArr xs)
  | .vObj _ => none

/-- The JS comparison `v < b` (false when `v` coerces to NaN). -/
def jsLtNum (v : Value) (b : Int) : Bool :=
  match jsToNumber v with
  | some q => decide (q < b)
  | none => false

/-- The JS comparison `v > b` (false when `v` coerces to NaN). -/
def jsGtNum (v : Value) (b : Int) : Bool :=
  match jsToNumber v with
  | some q => decide (q > b)
  | none => false

/-- The weather conversion `Math.round((c * 9) / 5 + 32)` on an integer
Celsius value, computed exactly on integers: Math.round is floor(x + 1/2),
and (9c+160)/5 + 1/2 = (18c+325)/10, so the result is the floor division
(18c+325) fdiv 10. -/
def roundCtoF (c : Int) : Int := (18 * c + 325).fdiv 10

/-- JS String.prototype.toLowerCase (character-wise, ASCII-adequate). -/
def jsToLower (s : String) : String := String.mk (s.data.map Char.toLower)

/-- JS `s.charAt(0).toUpperCase() + s.slice(1)` (ASCII-adequate model). -/
def jsCapitalize (s : String) : String :=
  match s.data with
  | [] => ""
  | c :: cs => String.mk (c.toUpper :: cs)

/-- Console output: a list of rendered lines, oldest first. -/
abbrev Log := List String

/-- Logger capability handed to plugins (src/src/types.ts `PluginLogger`):
each method renders the line that `console.*` would print.  The structured
`data` argument is not rendered (it never reaches a result). -/
structure PluginLogger where
  debugM : String → String
  infoM : String → String
  warnM : String → String
  errorM : String → String

/-- Storage capability (src/src/types.ts `PluginStorageAPI`): `uploadFile`
maps a file name and content type to the stored URL.  The mock keeps the
bytes in a per-call map that nothing reads back; only the URL is modelled. -/
structure PluginStorage where
  uploadFile : String → String → String
  getFileUrl : String → String

/-- Execution context (src/src/types.ts `PluginContext`).  `pluginConfig`
and `env` are the raw values supplied by the caller (the HTTP handler
forwards body fields unvalidated, so they are arbitrary `Value`s). -/
structure PluginContext where
  datasourceId : Option String
  conversationId : Option String
  userId : Option String := none
  userEmail : Option String := none
  locale : Option String := none
  pluginConfig : Value
  env : Value
  logger : PluginLogger
  storage : PluginStorage

/-- Pixabay API search hit — only the fields the plugin reads. -/
structure PixabayHit where
  tags : String
  previewURL : String
  webformatURL : String

/-- Parsed body of a Pixabay API response. -/
structure PixabayResponse where
  total : Nat
  totalHits : Nat
  hits : List PixabayHit

/-- Outcome of `fetch(PIXABAY_API_URL?...)` followed by `response.json()`:
a rejected fetch or JSON parse error (thrown), a non-2xx response, or data. -/
inductive PixabayFetchOutcome where
  | thrownMsg : String → PixabayFetchOutcome
  | httpError : Nat → String → PixabayFetchOutcome
  | okData : PixabayResponse → PixabayFetchOutcome

/-- External-world oracle: the clock and the network.  `pixabayFetch` maps
the search parameters to the API outcome; `storeImage` models
`storeImageInMinio`'s I/O (two image fetches + uploads), returning the
stored preview/webformat URLs or the first thrown error; `fetchUrl` models
the whole fetch_url tool body (network + HTML conversion via external
libraries, excluded from the spec's scope). -/
structure World where
  now : Nat
  pixabayFetch : List (String × String) → PixabayFetchOutcome
  storeImage : PixabayHit → Except String (String × String)
  fetchUrl : Value → Except String Value

/-- Tool object produced by a factory (the AI SDK `tool({...})` value):
a description, the JSON schema passed to `jsonSchema(...)` (exposed by the
SDK wrapper as `inputSchema.jsonSchema`), and the execute body.  `run`
returns the settled result of `execute(params)` — `Except.error` for a
rejected promise — together with the console lines it emitted. -/
structure Tool where
  description : String
  inputSchema : Value
  run : Value → World → Except String Value × List String

/-- Tool definition within a plugin (src/src/types.ts
`PluginToolDefinition`). -/
structure PluginToolDefinition where
  id : String
  createTool : PluginContext → Tool
  isAvailable : Option (Value → Bool) := none

/-- Tool declaration inside a manifest — the fields the loader projects. -/
structure PluginToolDeclaration where
  id : String
  name : String
  description : String

/-- Plugin manifest (src/src/types.ts `PluginManifest`); fields the loader
never reads (license, homepage, i18n, prompt instructions) are omitted. -/
structure PluginManifest where
  id : String
  name : String
  version : String
  description : String
  author : String
  icon : Option String := none
  category : Option String := none
  requiredEnvVars : Option (List String) := none
  optionalEnvVars : Option (List String) := none
  configSchema : Option Value := none
  tools : List PluginToolDeclaration

/-- Plugin export (src/src/types.ts `PluginExport`).  The `onLoad`/`onUnload`
hooks only log a line at process start and are omitted; `validateConfig`
returns `none` for valid (the source returns `true`) and `some reason`
otherwise. -/
structure PluginExport where
  manifest : PluginManifest
  tools : List PluginToolDefinition
  validateConfig : Option (Value → Option String) := none

/-! ## Weather plugin (src/plugins/weather) -/

/-- Demo weather entry (src/plugins/weather/tools/get-weather.ts). -/
structure WeatherData where
  condition : String
  tempCelsius : Int
  humidity : Int
  windSpeed : Int

/-- DEMO_WEATHER.default entry. -/
def demoWeatherDefault : WeatherData :=
  { condition := "Variable", tempCelsius := 20, humidity := 60, windSpeed := 10 }

/-- Demo weather table DEMO_WEATHER, keyed by lowercased city. -/
def DEMO_WEATHER : List (String × WeatherData) :=
  [ ("paris", { condition := "Partiellement nuageux", tempCelsius := 18, humidity := 65, windSpeed := 12 }),
    ("london", { condition := "Pluvieux", tempCelsius := 14, humidity := 80, windSpeed := 20 }),
    ("new york", { condition := "Ensoleille", tempCelsius := 22, humidity := 55, windSpeed := 8 }),
    ("tokyo", { condition := "Nuageux", tempCelsius := 20, humidity := 70, windSpeed := 10 }),
    ("sydney", { condition := "Ensoleille", tempCelsius := 25, humidity := 50, windSpeed := 15 }),
    ("default", demoWeatherDefault) ]

/-- Country table COUNTRY_MAP. -/
def COUNTRY_MAP : List (String × String) :=
  [ ("paris", "France"), ("london", "Royaume-Uni"), ("new york", "Etats-Unis"),
    ("tokyo", "Japon"), ("sydney", "Australie") ]

/-- Own-property lookup in DEMO_WEATHER. -/
def demoLookup (k : String) : Option WeatherData :=
  (DEMO_WEATHER.find? (fun p => p.1 == k)).map (fun p => p.2)

/-- Own-property lookup in COUNTRY_MAP. -/
def countryLookup (k : String) : Option String :=
  (COUNTRY_MAP.find? (fun p => p.1 == k)).map (fun p => p.2)

/-- The `defaultCity` computed by `createGetWeatherTool`:
`(config.defaultCity as string) || env.WEATHER_DEFAULT_CITY || 'Paris'`.
The `as string` assertion has no runtime effect, so the result is whatever
truthy value the config holds. -/
def weatherDefaultCity (config env : Value) : Value :=
  jsOrD (config.getProp "defaultCity")
    (jsOrD (env.getProp "WEATHER_DEFAULT_CITY") (.vStr "Paris"))

/-- The `units` computed by `createGetWeatherTool`:
`(config.units as string) || 'celsius'`. -/
def weatherUnits (config : Value) : Value :=
  jsOrD (config.getProp "units") (.vStr "celsius")

/-- Is the configured unit exactly the string 'fahrenheit'
(`units === 'fahrenheit'`)? -/
def weatherUnitsIsF (config : Value) : Bool :=
  jsEqStrV "fahrenheit" (weatherUnits config)

/-- Result object the weather execute returns for a (string) city. -/
def getWeatherResult (isF : Bool) (city : String) : Value :=
  let cityLower := jsToLower city
  let data := (demoLookup cityLower).getD demoWeatherDefault
  let country := (countryLookup cityLower).getD "Inconnu"
  let temperature : Int := if isF then roundCtoF data.tempCelsius else data.tempCelsius
  let unit := if isF then "F" else "C"
  .vObj
    [ ("city", .vStr (jsCapitalize city)),
      ("country", .vStr country),
      ("temperature", .vNum temperature),
      ("unit", .vStr unit),
      ("condition", .vStr data.condition),
      ("humidity", .vNum data.humidity),
      ("windSpeed", .vNum data.windSpeed),
      ("message", .vStr ("Meteo a " ++ city ++ ": " ++ data.condition ++ ", "
        ++ jsNumToString temperature ++ "Â°" ++ unit ++ ", humidite "
        ++ jsNumToString data.humidity ++ "%, vent "
        ++ jsNumToString data.windSpeed ++ " km/h. (Donnees de demonstration)")) ]

/-- Tool factory `createGetWeatherTool` (src/plugins/weather/tools/get-weather.ts).
`execute` resolves `params.city || defaultCity`; calling `.toLowerCase()` on
a non-string city throws a TypeError (promise rejection). -/
def createGetWeatherTool (ctx : PluginContext) : Tool :=
  let defaultCity := weatherDefaultCity ctx.pluginConfig ctx.env
  let isF := weatherUnitsIsF ctx.pluginConfig
  { description := "Obtient les conditions meteorologiques actuelles pour une ville. Ville par defaut: "
      ++ jsDisplay defaultCity
      ++ ". ATTENTION: Ce sont des donnees de demonstration, pas de vraies donnees meteo.",
    inputSchema := .vObj
      [ ("type", .vStr "object"),
        ("properties", .vObj
          [ ("city", .vObj
              [ ("type", .vStr "string"),
                ("description", .vStr ("Nom de la ville (ex: Paris, London, Tokyo). Par defaut: "
                  ++ jsDisplay defaultCity)) ]) ]),
        ("required", .vArr []) ],
    run := fun params _w =>
      match jsOrD (params.getProp "city") defaultCity with
      | .vStr city =>
          (Except.ok (getWeatherResult isF city),
           [ctx.logger.infoM "Getting weather"])
      | _ => (Except.error "city.toLowerCase is not a function", []) }

/-- Weather plugin config validator (src/plugins/fetch/index.ts, weather
plugin export): rejects a truthy `units` that is neither 'celsius' nor
'fahrenheit'. -/
def weatherValidateConfig (config : Value) : Option String :=
  match config.getProp "units" with
  | some v =>
      if jsTruthy v && !(jsEqStrV "celsius" v || jsEqStrV "fahrenheit" v) then
        some "units doit etre \"celsius\" ou \"fahrenheit\""
      else none
  | none => none

/-- Tool definition list of the weather plugin. -/
def weatherTools : List PluginToolDefinition :=
  [ { id := "get_weather",
      createTool := createGetWeatherTool,
      isAvailable := some (fun _ => true) } ]

/-- Modelled from the spec: the weather plugin's manifest.json is not among
the sources; the spec fixes the id `weather` and that the plugin has no
required environment variables.  The remaining display fields are
placeholders never inspected by a claim. -/
def weatherManifest : PluginManifest :=
  { id := "weather",
    name := "Weather",
    version := "1.0.0",
    description := "Demo weather plugin",
    author := "c2s",
    requiredEnvVars := none,
    optionalEnvVars := some ["WEATHER_DEFAULT_CITY"],
    tools := [ { id := "get_weather", name := "Get Weather",
                 description := "Get current weather for a city (demo data)" } ] }

/-- Weather plugin export (src/plugins/weather/index.ts, registered first). -/
def weatherPlugin : PluginExport :=
  { manifest := weatherManifest,
    tools := weatherTools,
    validateConfig := some weatherValidateConfig }

/-! ## Pixabay plugin (src/plugins/pixabay) -/

/-- Localized message bundle (MESSAGES in search-images.ts). -/
structure PixabayMessages where
  noImagesFound : String
  imagesFound : Nat → String → String
  errorApiSearch : String → String → String → String
  errorNotConfigured : String
  errorImageSearch : String → String

/-- MESSAGES.fr. -/
def pixabayMessagesFr : PixabayMessages :=
  { noImagesFound := "Aucune image trouvee pour cette recherche.",
    imagesFound := fun count total =>
      toString count ++ " image(s) trouvee(s) sur " ++ total ++ " resultats au total.",
    errorApiSearch := fun api status statusText =>
      "Erreur lors de la recherche " ++ api ++ ": " ++ status ++ " - " ++ statusText,
    errorNotConfigured := "L'API Pixabay n'est pas configuree (PIXABAY_API_KEY manquant).",
    errorImageSearch := fun error => "Erreur lors de la recherche d'images: " ++ error }

/-- MESSAGES.en. -/
def pixabayMessagesEn : PixabayMessages :=
  { noImagesFound := "No images found for this search.",
    imagesFound := fun count total =>
      toString count ++ " image(s) found out of " ++ total ++ " total results.",
    errorApiSearch := fun api status statusText =>
      "Error searching " ++ api ++ ": " ++ status ++ " - " ++ statusText,
    errorNotConfigured := "Pixabay API is not configured (missing PIXABAY_API_KEY).",
    errorImageSearch := fun error => "Error searching images: " ++ error }

/-- getMessages: English only for the exact locale 'en', French otherwise. -/
def getMessages (locale : Option String) : PixabayMessages :=
  if locale == some "en" then pixabayMessagesEn else pixabayMessagesFr

/-- Scan for the regex /\.([a-zA-Z]+)(?:\?|$)/ over the characters of a URL:
a dot followed by letters ending at a question mark or the end. -/
def getExtensionL : List Char → String
  | [] => "jpg"
  | '.' :: rest =>
      let run := rest.takeWhile (fun c => c.isAlpha)
      let after := rest.drop run.length
      if !run.isEmpty && (after.isEmpty || after.head? == some '?') then String.mk run
      else getExtensionL rest
  | _ :: rest => getExtensionL rest

/-- getExtension (search-images.ts): extension of a URL, defaulting to jpg. -/
def getExtension (url : String) : String := getExtensionL url.data

/-- Number.prototype.toLocaleString on a natural number, approximated:
digits grouped in threes, separated by a comma for 'en' and a narrow
no-break space otherwise (the 'fr' default). -/
def groupDigits (sep : List Char) (ds : List Char) : List Char :=
  if ds.length ≤ 3 then ds
  else groupDigits sep (ds.take (ds.length - 3)) ++ sep ++ ds.drop (ds.length - 3)
termination_by ds.length
decreasing_by simp; omega

/-- Number.prototype.toLocaleString on a natural number, approximated:
digits grouped in threes, comma-separated for 'en', space otherwise. -/
def natToLocaleString (locale : String) (n : Nat) : String :=
  let sep : List Char := if locale == "en" then [','] else [' ']
  String.mk (groupDigits sep (toString n).data)

/-- Stored image: the hit plus the two stored URLs (StoredImage). -/
structure StoredImage where
  hit : PixabayHit
  storedPreviewURL : String
  storedWebformatURL : String

/-- Promise.all(hits.map(storeImageInMinio)): every stored image, or the
first rejection (Promise.all settles with the first error; the model picks
list order). -/
def storeAllImages (w : World) : List PixabayHit → Except String (List StoredImage)
  | [] => .ok []
  | h :: t =>
      match w.storeImage h with
      | .error e => .error e
      | .ok (p, wf) => (storeAllImages w t).map (fun rest => ⟨h, p, wf⟩ :: rest)

/-- formatImageResults (search-images.ts): message plus media attachments. -/
def formatImageResults (resp : PixabayResponse) (stored : List StoredImage)
    (locale : Option String) : Value :=
  let msg := getMessages locale
  if resp.hits.length == 0 then .vObj [("message", .vStr msg.noImagesFound)]
  else
    let media : List Value := stored.map (fun image =>
      .vObj
        [ ("type", .vStr "image"),
          ("url", .vStr image.storedWebformatURL),
          ("downloadUrl", .vStr image.storedWebformatURL),
          ("alt", .vStr (String.intercalate ", " ((image.hit.tags.splitOn ",").take 3))),
          ("mimeType", .vStr ("image/" ++
            (if getExtension image.hit.webformatURL == "jpg" then "jpeg"
             else getExtension image.hit.webformatURL))) ])
    .vObj
      [ ("message", .vStr (msg.imagesFound resp.hits.length
          (natToLocaleString ((locale).getD "fr") resp.total))),
        ("media", .vArr media) ]

/-- URLSearchParams built by the pixabay execute, in insertion order
(the conditional `set` calls append, their keys being fresh). -/
def pixabaySearchParams (apiKey : Option Value) (params : Value)
    (defaultLanguage : Value) (safeSearch : Bool) (defaultPerPage : Value) :
    List (String × String) :=
  let base :=
    [ ("key", jsDisplayOpt apiKey),
      ("q", jsDisplayOpt (params.getProp "q")),
      ("lang", jsDisplay (jsOrD (params.getProp "lang") defaultLanguage)),
      ("image_type", jsDisplay (jsOrD (params.getProp "image_type") (.vStr "all"))),
      ("orientation", jsDisplay (jsOrD (params.getProp "orientation") (.vStr "all"))),
      ("editors_choice", jsDisplay (jsOrD (params.getProp "editors_choice") (.vBool false))),
      ("safesearch", jsDisplay ((params.getProp "safesearch").getD (.vBool safeSearch))),
      ("order", jsDisplay (jsOrD (params.getProp "order") (.vStr "popular"))),
      ("page", jsDisplay (jsOrD (params.getProp "page") (.vNum 1))),
      ("per_page", jsDisplay (jsOrD (params.getProp "per_page") defaultPerPage)) ]
  let base := base ++ (match params.getProp "category" with
    | some v => if jsTruthy v then [("category", jsDisplay v)] else []
    | none => [])
  let base := base ++ (match params.getProp "min_width" with
    | some v => if jsTruthy v then [("min_width", jsDisplay v)] else []
    | none => [])
  let base := base ++ (match params.getProp "min_height" with
    | some v => if jsTruthy v then [("min_height", jsDisplay v)] else []
    | none => [])
  base ++ (match params.getProp "colors" with
    | some v => if jsTruthy v then [("colors", jsDisplay v)] else []
    | none => [])

/-- Tool factory `createSearchPixabayTool`
(src/plugins/pixabay/tools/search-images.ts).  The network interaction
(`fetch` of the API, JSON parse, image storing) goes through the `World`
oracle; the `try/catch` turns any of those throws into a localized message
result, so `execute` never rejects. -/
def createSearchPixabayTool (ctx : PluginContext) : Tool :=
  let defaultLanguage := jsOrD (ctx.pluginConfig.getProp "defaultLanguage") (.vStr "en")
  let safeSearch := match ctx.pluginConfig.getProp "safeSearch" with
    | some (.vBool false) => false
    | _ => true
  let defaultPerPage := jsOrD (ctx.pluginConfig.getProp "defaultPerPage") (.vNum 6)
  let locale := ctx.locale
  { description := "Recherche des images libres de droits sur Pixabay. Retourne une liste d'images correspondant aux criteres de recherche avec URLs, metadonnees et statistiques. Utilise cet outil pour aider les utilisateurs a trouver des images pour leurs projets, presentations ou designs.",
    inputSchema := .vObj
      [ ("type", .vStr "object"),
        ("properties", .vObj
          [ ("q", .vObj [("type", .vStr "string"),
              ("description", .vStr "Terme de recherche (max 100 caracteres). Sois precis pour de meilleurs resultats. En anglais de preference.")]),
            ("lang", .vObj [("type", .vStr "string"),
              ("enum", .vArr (["cs","da","de","en","es","fr","id","it","hu","nl","no","pl","pt","ro","sk","fi","sv","tr","vi","th","bg","ru","el","ja","ko","zh"].map Value.vStr)),
              ("description", .vStr ("Code langue pour la recherche. Par defaut: " ++ jsDisplay defaultLanguage))]),
            ("image_type", .vObj [("type", .vStr "string"),
              ("enum", .vArr (["all","photo","illustration","vector"].map Value.vStr)),
              ("description", .vStr "Filtrer par type d'image. Par defaut: all")]),
            ("orientation", .vObj [("type", .vStr "string"),
              ("enum", .vArr (["all","horizontal","vertical"].map Value.vStr)),
              ("description", .vStr "Filtrer par orientation. Par defaut: all")]),
            ("category", .vObj [("type", .vStr "string"),
              ("enum", .vArr (["backgrounds","fashion","nature","science","education","feelings","health","people","religion","places","animals","industry","computer","food","sports","transportation","travel","buildings","business","music"].map Value.vStr)),
              ("description", .vStr "Filtrer par categorie")]),
            ("min_width", .vObj [("type", .vStr "number"),
              ("description", .vStr "Largeur minimum en pixels")]),
            ("min_height", .vObj [("type", .vStr "number"),
              ("description", .vStr "Hauteur minimum en pixels")]),
            ("colors", .vObj [("type", .vStr "string"),
              ("enum", .vArr (["grayscale","transparent","red","orange","yellow","green","turquoise","blue","lilac","pink","white","gray","black","brown"].map Value.vStr)),
              ("description", .vStr "Filtrer par couleur dominante")]),
            ("editors_choice", .vObj [("type", .vStr "boolean"),
              ("description", .vStr "Selectionner uniquement les images 'Choix de l'editeur'. Par defaut: false")]),
            ("safesearch", .vObj [("type", .vStr "boolean"),
              ("description", .vStr ("Filtrer le contenu adulte. Par defaut: " ++ (if safeSearch then "true" else "false")))]),
            ("order", .vObj [("type", .vStr "string"),
              ("enum", .vArr (["popular","latest"].map Value.vStr)),
              ("description", .vStr "Ordre de tri des resultats. Par defaut: popular")]),
            ("page", .vObj [("type", .vStr "number"),
              ("description", .vStr "Numero de page pour la pagination. Par defaut: 1")]),
            ("per_page", .vObj [("type", .vStr "number"),
              ("description", .vStr ("Nombre de resultats par page (3-200). Par defaut: " ++ jsDisplay defaultPerPage))]) ]),
        ("required", .vArr [Value.vStr "q"]) ],
    run := fun params w =>
      let msg := getMessages locale
      let firstLog := ctx.logger.infoM "Tool called"
      let apiKey := ctx.env.getProp "PIXABAY_API_KEY"
      if jsFalsyOpt apiKey then
        (Except.ok (.vObj [("message", .vStr msg.errorNotConfigured)]),
         [firstLog, ctx.logger.errorM "PIXABAY_API_KEY is not configured"])
      else
        let sp := pixabaySearchParams apiKey params defaultLanguage safeSearch defaultPerPage
        match w.pixabayFetch sp with
        | .thrownMsg m =>
            (Except.ok (.vObj [("message", .vStr (msg.errorImageSearch m))]),
             [firstLog, ctx.logger.errorM "Error searching images"])
        | .httpError status statusText =>
            (Except.ok (.vObj [("message", .vStr (msg.errorApiSearch "Pixabay" (toString status) statusText))]),
             [firstLog, ctx.logger.errorM "Pixabay API error"])
        | .okData data =>
            match storeAllImages w data.hits with
            | .error m =>
                (Except.ok (.vObj [("message", .vStr (msg.errorImageSearch m))]),
                 [firstLog, ctx.logger.infoM "Pixabay response received",
                  ctx.logger.errorM "Error searching images"])
            | .ok stored =>
                (Except.ok (formatImageResults data stored locale),
                 [firstLog, ctx.logger.infoM "Pixabay response received"]) }

/-- Pixabay config validator (src/plugins/pixabay/index.ts): rejects a
present `defaultPerPage` outside 3..20 (JS `<`/`>` with ToNumber coercion). -/
def pixabayValidateConfig (config : Value) : Option String :=
  match config.getProp "defaultPerPage" with
  | some v =>
      if jsLtNum v 3 || jsGtNum v 20 then some "defaultPerPage doit etre entre 3 et 20"
      else none
  | none => none

/-- Availability predicate of search_images: `(env) => !!env.PIXABAY_API_KEY`. -/
def pixabayIsAvailable (env : Value) : Bool :=
  jsTruthyOpt (env.getProp "PIXABAY_API_KEY")

/-- Tool definition list of the pixabay plugin. -/
def pixabayTools : List PluginToolDefinition :=
  [ { id := "search_images",
      createTool := createSearchPixabayTool,
      isAvailable := some pixabayIsAvailable } ]

/-- Modelled from the spec: the pixabay plugin's manifest.json is not among
the sources; the spec fixes that the plugin requires PIXABAY_API_KEY, and
the loader import path fixes the id `pixabay`.  Display fields are
placeholders never inspected by a claim. -/
def pixabayManifest : PluginManifest :=
  { id := "pixabay",
    name := "Pixabay",
    version := "1.0.0",
    description := "Pixabay image search plugin",
    author := "c2s",
    requiredEnvVars := some ["PIXABAY_API_KEY"],
    tools := [ { id := "search_images", name := "Search Images",
                 description := "Search royalty-free images on Pixabay" } ] }

/-- Pixabay plugin export (src/plugins/pixabay/index.ts, registered second). -/
def pixabayPlugin : PluginExport :=
  { manifest := pixabayManifest,
    tools := pixabayTools,
    validateConfig := some pixabayValidateConfig }

/-! ## Fetch plugin (src/plugins/fetch) — defined in the sources but NOT in
the loader's registry list. -/

/-- Tool factory `createFetchUrlTool` (src/plugins/fetch/tools/fetch-url.ts).
The body (network fetch, Readability extraction, Turndown markdown
conversion, pagination) uses external libraries the spec excludes from
scope; it is modelled as the `fetchUrl` oracle of the `World`.  The schema
and description are embedded from the source. -/
def createFetchUrlTool (ctx : PluginContext) : Tool :=
  let defaultMaxLength := jsOrD (ctx.pluginConfig.getProp "maxLength") (.vNum 5000)
  { description := "Recupere le contenu d'une URL et le convertit en markdown lisible. Supporte la pagination pour les contenus longs.",
    inputSchema := .vObj
      [ ("type", .vStr "object"),
        ("properties", .vObj
          [ ("url", .vObj [("type", .vStr "string"),
              ("description", .vStr "L'URL a recuperer (ex: https://example.com)")]),
            ("max_length", .vObj [("type", .vStr "number"),
              ("description", .vStr ("Nombre maximum de caracteres a retourner (defaut: " ++ jsDisplay defaultMaxLength ++ ")"))]),
            ("start_index", .vObj [("type", .vStr "number"),
              ("description", .vStr "Index de depart dans le contenu pour la pagination (defaut: 0)")]),
            ("raw", .vObj [("type", .vStr "boolean"),
              ("description", .vStr "Si true, retourne le HTML brut sans conversion en markdown (defaut: false)")]) ]),
        ("required", .vArr [Value.vStr "url"]) ],
    run := fun params w =>
      (w.fetchUrl params, [ctx.logger.infoM "Fetching URL"]) }

/-- Fetch plugin config validator (src/plugins/fetch/index.ts): rejects a
present `maxLength` outside 100..100000. -/
def fetchValidateConfig (config : Value) : Option String :=
  match config.getProp "maxLength" with
  | some v =>
      if jsLtNum v 100 || jsGtNum v 100000 then some "maxLength doit etre entre 100 et 100000"
      else none
  | none => none

/-- Tool definition list of the fetch plugin. -/
def fetchTools : List PluginToolDefinition :=
  [ { id := "fetch_url",
      createTool := createFetchUrlTool,
      isAvailable := some (fun _ => true) } ]

/-- Modelled from the spec: the fetch plugin's manifest.json is not among
the sources; its directory and tool naming fix the id `fetch`. -/
def fetchManifest : PluginManifest :=
  { id := "fetch",
    name := "Fetch",
    version := "1.0.0",
    description := "Fetch URL content as markdown",
    author := "c2s",
    tools := [ { id := "fetch_url", name := "Fetch URL",
                 description := "Fetch a URL and convert it to readable markdown" } ] }

/-- Fetch plugin export (src/plugins/fetch/index.ts).  It is exported by its
module but never imported by the plugin loader. -/
def fetchPlugin : PluginExport :=
  { manifest := fetchManifest,
    tools := fetchTools,
    validateConfig := some fetchValidateConfig }

/-! ## Plugin loader / registry (src/src/lib/server/plugin-loader.ts) -/

/-- Static registry: `const loadedPlugins = [weatherPlugin, pixabayPlugin]`.
The fetch plugin is not in the list. -/
def loadedPlugins : List PluginExport := [weatherPlugin, pixabayPlugin]

/-- Projection of a manifest for the playground (interface PluginInfo). -/
structure PluginInfo where
  id : String
  name : String
  version : String
  description : String
  author : String
  icon : Option String
  category : Option String
  requiredEnvVars : List String
  optionalEnvVars : List String
  configSchema : Option Value
  tools : List PluginToolDeclaration

/-- getPlugins over an explicit plugin list. -/
def getPluginsIn (plugins : List PluginExport) : List PluginInfo :=
  plugins.map (fun plugin =>
    { id := plugin.manifest.id,
      name := plugin.manifest.name,
      version := plugin.manifest.version,
      description := plugin.manifest.description,
      author := plugin.manifest.author,
      icon := plugin.manifest.icon,
      category := plugin.manifest.category,
      requiredEnvVars := plugin.manifest.requiredEnvVars.getD [],
      optionalEnvVars := plugin.manifest.optionalEnvVars.getD [],
      configSchema := plugin.manifest.configSchema,
      tools := plugin.manifest.tools.map (fun t =>
        { id := t.id, name := t.name, description := t.description }) })

/-- getPlugins (plugin-loader.ts line 34). -/
def getPlugins : List PluginInfo := getPluginsIn loadedPlugins

/-- getPlugin over an explicit plugin list: exact-match lookup by manifest
id.  The id to find is a runtime `Value` (the HTTP handler forwards the
body field unvalidated); `p.manifest.id === pluginId` is strict equality. -/
def getPluginIn (plugins : List PluginExport) (pluginId : Value) : Option PluginExport :=
  plugins.find? (fun p => jsEqStrV p.manifest.id pluginId)

/-- getPlugin (plugin-loader.ts line 54). -/
def getPlugin (pluginId : Value) : Option PluginExport :=
  getPluginIn loadedPlugins pluginId

/-- createMockLogger (plugin-loader.ts line 58): console lines prefixed by
the plugin id. -/
def createMockLogger (pluginId : Value) : PluginLogger :=
  { debugM := fun m => "[" ++ jsDisplay pluginId ++ "] DEBUG: " ++ m,
    infoM := fun m => "[" ++ jsDisplay pluginId ++ "] INFO: " ++ m,
    warnM := fun m => "[" ++ jsDisplay pluginId ++ "] WARN: " ++ m,
    errorM := fun m => "[" ++ jsDisplay pluginId ++ "] ERROR: " ++ m }

/-- createMockStorage (plugin-loader.ts line 75): deterministic mock URLs
under /api/mock-files/mock-storage/(pluginId)/. -/
def createMockStorage (pluginId : Value) : PluginStorage :=
  { uploadFile := fun fileName _contentType =>
      "/api/mock-files/mock-storage/" ++ jsDisplay pluginId ++ "/" ++ fileName,
    getFileUrl := fun fileName =>
      "/api/mock-files/mock-storage/" ++ jsDisplay pluginId ++ "/" ++ fileName }

/-- Structured form of the errors `executeTool` throws; `message` renders
the exact thrown message strings. -/
inductive ExecError where
  | pluginNotFound : Value → ExecError
  | toolNotFound : Value → Value → ExecError
  | unavailable : Value → ExecError
  | thrown : String → ExecError

/-- Thrown message strings of plugin-loader.ts lines 104, 109, 114. -/
def ExecError.message : ExecError → String
  | .pluginNotFound pluginId => "Plugin not found: " ++ jsDisplay pluginId
  | .toolNotFound toolId pluginId =>
      "Tool not found: " ++ jsDisplay toolId ++ " in plugin " ++ jsDisplay pluginId
  | .unavailable toolId =>
      "Tool " ++ jsDisplay toolId ++ " is not available (missing required env vars)"
  | .thrown m => m

/-- Arguments of executeTool (interface ExecuteToolOptions); ids are raw
`Value`s because the HTTP handler forwards body fields unvalidated. -/
structure ExecuteToolOptions where
  pluginId : Value
  toolId : Value
  params : Value
  env : Value
  config : Value

/-- The fresh mock context executeTool builds per invocation
(plugin-loader.ts lines 118-128): the supplied env and config, a fixed
locale 'fr', synthetic identifiers (the conversation id embeds Date.now()),
and per-call logger/storage. -/
def mkContext (pluginId env config : Value) (now : Nat) : PluginContext :=
  { datasourceId := none,
    conversationId := some ("test-conversation-" ++ toString now),
    userId := some "test-user",
    userEmail := some "test@example.com",
    locale := some "fr",
    pluginConfig := config,
    env := env,
    logger := createMockLogger pluginId,
    storage := createMockStorage pluginId }

/-- The availability gate: `toolDef.isAvailable && !toolDef.isAvailable(env)`. -/
def gatedOff (toolDef : PluginToolDefinition) (env : Value) : Bool :=
  match toolDef.isAvailable with
  | some f => !(f env)
  | none => false

/-- executeTool over an explicit plugin list (plugin-loader.ts line 99):
resolve the plugin, resolve the tool, check availability, build a fresh
context, create the tool and run it.  Thrown errors from the tool surface
as `ExecError.thrown`. -/
def executeToolIn (plugins : List PluginExport) (opts : ExecuteToolOptions)
    (w : World) (log : Log) : Except ExecError Value × Log :=
  match getPluginIn plugins opts.pluginId with
  | none => (.error (.pluginNotFound opts.pluginId), log)
  | some plugin =>
      match plugin.tools.find? (fun t => jsEqStrV t.id opts.toolId) with
      | none => (.error (.toolNotFound opts.toolId opts.pluginId), log)
      | some toolDef =>
          if gatedOff toolDef opts.env then (.error (.unavailable opts.toolId), log)
          else
            let ctx := mkContext opts.pluginId opts.env opts.config w.now
            let tool := toolDef.createTool ctx
            ((tool.run opts.params w).1.mapError ExecError.thrown,
             log ++ (tool.run opts.params w).2)

/-- executeTool against the static registry. -/
def executeTool (opts : ExecuteToolOptions) (w : World) (log : Log) :
    Except ExecError Value × Log :=
  executeToolIn loadedPlugins opts w log

/-- getToolInputSchema (plugin-loader.ts line 141): `null` (`none`) when the
plugin or tool id is unknown; otherwise the tool is built with a minimal
context (empty config/env, no identifiers) and its JSON schema extracted
(every embedded tool carries the AI SDK `jsonSchema` wrapper, so the
fallback branches of the source are not taken).  The function is total and
world-independent: tool construction performs no I/O. -/
def getToolInputSchema (pluginId toolId : String) : Option Value :=
  match getPlugin (.vStr pluginId) with
  | none => none
  | some plugin =>
      match plugin.tools.find? (fun t => t.id == toolId) with
      | none => none
      | some toolDef =>
          let ctx : PluginContext :=
            { datasourceId := none,
              conversationId := none,
              pluginConfig := .vObj [],
              env := .vObj [],
              logger := createMockLogger (.vStr pluginId),
              storage := createMockStorage (.vStr pluginId) }
          some (toolDef.createTool ctx).inputSchema

/-! ## HTTP endpoint POST /api/execute (src/src/routes/api/execute/+server.ts) -/

/-- Incoming request as seen after `await request.json()`: either the parse
rejected (invalid JSON, carrying the SyntaxError message) or it produced a
JSON value. -/
inductive PostRequest where
  | badJson : String → PostRequest
  | jsonBody : Value → PostRequest

/-- HTTP response produced with SvelteKit's `json(body, {status})`;
`json(body)` without options is status 200. -/
structure JsonResponse where
  status : Nat
  body : Value

/-- 400 body for a missing pluginId/toolId. -/
def badRequestBody : Value :=
  .vObj [("error", .vStr "pluginId and toolId are required")]

/-- 500 body: `{ success: false, error }`. -/
def failureBody (msg : String) : Value :=
  .vObj [("success", .vBool false), ("error", .vStr msg)]

/-- 200 body: `{ success: true, result }`. -/
def successBody (result : Value) : Value :=
  .vObj [("success", .vBool true), ("result", result)]

/-- Mapping from an executeTool outcome to the handler's response (the
`return json({success:true,result})` and the catch branch). -/
def execResponse (r : Except ExecError Value) : JsonResponse :=
  match r with
  | .ok v => { status := 200, body := successBody v }
  | .error e => { status := 500, body := failureBody e.message }

/-- TypeError message of destructuring a null body (approximated text). -/
def destructureNullMsg : String :=
  "Cannot destructure property 'pluginId' of 'body' as it is null."

/-- The POST handler: parse failures and thrown errors are caught and
returned as 500 `{success:false, error}`; a falsy (or absent) pluginId or
toolId short-circuits to 400 before executeTool; otherwise executeTool runs
with params/env/config defaulted to `{}` when falsy or absent. -/
def POST (req : PostRequest) (w : World) (log : Log) : JsonResponse × Log :=
  match req with
  | .badJson m =>
      ({ status := 500, body := failureBody m }, log ++ ["Error executing tool: " ++ m])
  | .jsonBody v =>
      match v with
      | .vNull =>
          ({ status := 500, body := failureBody destructureNullMsg },
           log ++ ["Error executing tool: " ++ destructureNullMsg])
      | body =>
          let pluginId := body.getProp "pluginId"
          let toolId := body.getProp "toolId"
          if jsFalsyOpt pluginId || jsFalsyOpt toolId then
            ({ status := 400, body := badRequestBody }, log)
          else
            let r := executeTool
              { pluginId := pluginId.getD .vNull,
                toolId := toolId.getD .vNull,
                params := jsOrD (body.getProp "params") (.vObj []),
                env := jsOrD (body.getProp "env") (.vObj []),
                config := jsOrD (body.getProp "config") (.vObj []) } w log
            match r.1 with
            | .ok res => ({ status := 200, body := successBody res }, r.2)
            | .error e =>
                ({ status := 500, body := failureBody e.message },
                 r.2 ++ ["Error executing tool: " ++ e.message])

/-! ## Auxiliary notions for the statements -/

/-- Does a character list start with another (needle-second)? -/
def startsWithL : List Char → List Char → Bool
  | _, [] => true
  | [], _ :: _ => false
  | a :: as, b :: bs => (a == b) && startsWithL as bs

/-- Substring occurrence over character lists. -/
def containsSubL : List Char → List Char → Bool
  | [], needle => needle.isEmpty
  | h :: t, needle => startsWithL (h :: t) needle || containsSubL t needle

/-- String containment, as JS String.prototype.includes. -/
def strContainsSub (hay needle : String) : Bool := containsSubL hay.data needle.data

/-- A benign offline world used to instantiate universally quantified
worlds in the closed corollaries. -/
def w0 : World :=
  { now := 0,
    pixabayFetch := fun _ => .thrownMsg "offline",
    storeImage := fun _ => .error "offline",
    fetchUrl := fun _ => .error "offline" }

/-! ## C1 — unknown plugin / unknown tool -/

/-- C1: a call to executeTool whose pluginId matches no registered
manifest id fails with the thrown message "Plugin not found: (id)"; a call
whose plugin resolves but whose toolId matches no tool definition fails
with the distinct message "Tool not found: (tool) in plugin (id)".  In both
cases the returned pair is the error with the log untouched and does not
depend on the world: no context is built, no tool is constructed or
executed, and no console line is emitted.  The two message families never
coincide. -/
theorem executeTool_unknown_plugin_or_tool
    (pid tid : String) (params env config : Value) (w : World) (log : Log) :
    (getPlugin (.vStr pid) = none →
      executeTool ⟨.vStr pid, .vStr tid, params, env, config⟩ w log
        = (.error (.pluginNotFound (.vStr pid)), log)
      ∧ (ExecError.pluginNotFound (.vStr pid)).message = "Plugin not found: " ++ pid)
    ∧ (∀ plugin, getPlugin (.vStr pid) = some plugin →
        plugin.tools.find? (fun t => jsEqStrV t.id (.vStr tid)) = none →
        executeTool ⟨.vStr pid, .vStr tid, params, env, config⟩ w log
          = (.error (.toolNotFound (.vStr tid) (.vStr pid)), log)
        ∧ (ExecError.toolNotFound (.vStr tid) (.vStr pid)).message
            = "Tool not found: " ++ tid ++ " in plugin " ++ pid)
    ∧ (∀ a b : String, "Plugin not found: " ++ a ≠ "Tool not found: " ++ b) := by
  refine ⟨?_, ?_, ?_⟩
  · intro h
    unfold getPlugin at h
    refine ⟨?_, by simp [ExecError.message, jsDisplay]⟩
    unfold executeTool executeToolIn
    rw [h]
  · intro plugin hp ht
    unfold getPlugin at hp
    refine ⟨?_, by simp [ExecError.message, jsDisplay]⟩
    unfold executeTool executeToolIn
    rw [hp]
    dsimp only
    rw [ht]
  · intro a b h
    have h2 : ("Plugin not found: " ++ a).data = ("Tool not found: " ++ b).data :=
      congrArg String.data h
    rw [String.data_append, String.data_append] at h2
    have h3 : ("Plugin not found: ").data = 'P' :: "lugin not found: ".data := rfl
    have h4 : ("Tool not found: ").data = 'T' :: "ool not found: ".data := rfl
    rw [h3, h4] at h2
    simp at h2

/-- Witness for C1: both not-found branches evaluated at concrete ids. -/
theorem executeTool_unknown_plugin_or_tool_witness :
    executeTool ⟨.vStr "nosuch", .vStr "get_weather", .vObj [], .vObj [], .vObj []⟩ w0 []
      = (.error (.pluginNotFound (.vStr "nosuch")), [])
    ∧ executeTool ⟨.vStr "weather", .vStr "nosuchtool", .vObj [], .vObj [], .vObj []⟩ w0 []
      = (.error (.toolNotFound (.vStr "nosuchtool") (.vStr "weather")), []) := by
  constructor
  · exact ((executeTool_unknown_plugin_or_tool "nosuch" "get_weather"
      (.vObj []) (.vObj []) (.vObj []) w0 []).1 rfl).1
  · exact ((executeTool_unknown_plugin_or_tool "weather" "nosuchtool"
      (.vObj []) (.vObj []) (.vObj []) w0 []).2.1 weatherPlugin rfl rfl).1

/-! ## C2 — availability gating -/

/-- C2: whenever the resolved tool definition carries an isAvailable
predicate that returns false on the supplied env, executeTool fails with
the Unavailable-style thrown message before building a context or touching
the world (the result is the error constant, for every world, with no log
output); a tool definition without an isAvailable predicate is never gated
off (stated over an arbitrary registry, since both registered plugins
supply the predicate); and the pixabay search_images tool is gated off
exactly when env.PIXABAY_API_KEY is absent or the empty string (for
environment records of string values, as typed in the source). -/
theorem executeTool_availability_gate
    (opts : ExecuteToolOptions) (w : World) (log : Log) :
    (∀ plugin toolDef f,
      getPlugin opts.pluginId = some plugin →
      plugin.tools.find? (fun t => jsEqStrV t.id opts.toolId) = some toolDef →
      toolDef.isAvailable = some f →
      f opts.env = false →
      executeTool opts w log = (.error (.unavailable opts.toolId), log)
      ∧ (ExecError.unavailable opts.toolId).message
          = "Tool " ++ jsDisplay opts.toolId ++ " is not available (missing required env vars)")
    ∧ (∀ (plugins : List PluginExport) (plugin : PluginExport)
         (toolDef : PluginToolDefinition),
        getPluginIn plugins opts.pluginId = some plugin →
        plugin.tools.find? (fun t => jsEqStrV t.id opts.toolId) = some toolDef →
        toolDef.isAvailable = none →
        executeToolIn plugins opts w log ≠ (.error (.unavailable opts.toolId), log))
    ∧ (∀ (env : List (String × String)),
        pixabayIsAvailable (.vObj (env.map (fun p => (p.1, Value.vStr p.2)))) = false
        ↔ (objGet (env.map (fun p => (p.1, Value.vStr p.2))) "PIXABAY_API_KEY" = none
           ∨ objGet (env.map (fun p => (p.1, Value.vStr p.2))) "PIXABAY_API_KEY"
               = some (.vStr ""))) := by
  refine ⟨?_, ?_, ?_⟩
  · intro plugin toolDef f hp ht hf hfalse
    unfold getPlugin at hp
    refine ⟨?_, by simp [ExecError.message]⟩
    unfold executeTool executeToolIn
    rw [hp]
    dsimp only
    rw [ht]
    dsimp only
    have hg : gatedOff toolDef opts.env = true := by
      unfold gatedOff
      rw [hf]
      dsimp only
      rw [hfalse]
      rfl
    simp [hg]
  · intro plugins plugin toolDef hp ht hnone
    unfold executeToolIn
    rw [hp]
    dsimp only
    rw [ht]
    dsimp only
    have hg : gatedOff toolDef opts.env = false := by
      unfold gatedOff
      rw [hnone]
    simp only [hg, Bool.false_eq_true, if_false]
    intro hcontra
    have h1 := congrArg Prod.fst hcontra
    dsimp only at h1
    cases hrun : ((toolDef.createTool
        (mkContext opts.pluginId opts.env opts.config w.now)).run opts.params w).1 with
    | ok v => rw [hrun] at h1; simp [Except.mapError] at h1
    | error e => rw [hrun] at h1; simp [Except.mapError] at h1
  · intro env
    unfold pixabayIsAvailable
    induction env with
    | nil => simp [Value.getProp, objGet, jsTruthyOpt]
    | cons hd tl ih =>
        obtain ⟨k, v⟩ := hd
        by_cases hk : k = "PIXABAY_API_KEY"
        · subst hk
          simp [Value.getProp, objGet, List.find?, jsTruthyOpt, jsTruthy]
        · simp only [Value.getProp, objGet, List.map_cons, List.find?] at ih ⊢
          rw [show (k == "PIXABAY_API_KEY") = false by simp [hk]]
          simpa using ih

/-- Witness for C2: pixabay search_images with an empty environment is
rejected as unavailable. -/
theorem executeTool_availability_gate_witness :
    executeTool ⟨.vStr "pixabay", .vStr "search_images", .vObj [("q", .vStr "cats")],
        .vObj [], .vObj []⟩ w0 []
      = (.error (.unavailable (.vStr "search_images")), []) :=
  ((executeTool_availability_gate
      ⟨.vStr "pixabay", .vStr "search_images", .vObj [("q", .vStr "cats")],
        .vObj [], .vObj []⟩ w0 []).1 pixabayPlugin
    { id := "search_images", createTool := createSearchPixabayTool,
      isAvailable := some pixabayIsAvailable }
    pixabayIsAvailable rfl rfl rfl rfl).1

/-! ## C3 — schema lookup of unknown ids -/

/-- C3: getToolInputSchema returns the absent value (never a thrown error:
the embedding is a total function into Option) whenever the plugin id
matches no registered plugin, or the plugin exists but has no tool
definition with the requested id.  It takes no world: tool construction is
side-effect free. -/
theorem getToolInputSchema_unknown_returns_none (p t : String) :
    (getPlugin (.vStr p) = none → getToolInputSchema p t = none)
    ∧ (∀ plugin, getPlugin (.vStr p) = some plugin →
        plugin.tools.find? (fun td => td.id == t) = none →
        getToolInputSchema p t = none) := by
  constructor
  · intro h
    unfold getToolInputSchema
    rw [h]
  · intro plugin hp ht
    unfold getToolInputSchema
    rw [hp]
    dsimp only
    rw [ht]

/-- Witness for C3: both branches at concrete unknown ids. -/
theorem getToolInputSchema_unknown_returns_none_witness :
    getToolInputSchema "nosuch" "get_weather" = none
    ∧ getToolInputSchema "weather" "nosuchtool" = none := by
  constructor
  · exact (getToolInputSchema_unknown_returns_none "nosuch" "get_weather").1 rfl
  · exact (getToolInputSchema_unknown_returns_none "weather" "nosuchtool").2
      weatherPlugin rfl rfl

/-! ## C4 — the weather Tokyo/fahrenheit scenario -/

/-- C4: executeTool on the weather plugin's get_weather with params
city 'Tokyo', empty env and config units 'fahrenheit' succeeds (for every
world and prior log) with the result of the demo conversion: the demo
Celsius value for Tokyo is 20, the temperature field is its rounded
Fahrenheit conversion 68, the unit field is 'F', and the message embeds
the city name "Tokyo" and the unit letter "F". -/
theorem executeTool_weather_tokyo_fahrenheit (w : World) (log : Log) :
    (executeTool ⟨.vStr "weather", .vStr "get_weather",
        .vObj [("city", .vStr "Tokyo")], .vObj [],
        .vObj [("units", .vStr "fahrenheit")]⟩ w log).1
      = .ok (getWeatherResult true "Tokyo")
    ∧ (∃ fs, getWeatherResult true "Tokyo" = .vObj fs
        ∧ objGet fs "temperature" = some (.vNum 68)
        ∧ objGet fs "unit" = some (.vStr "F")
        ∧ (∃ m, objGet fs "message" = some (.vStr m)
            ∧ strContainsSub m "Tokyo" = true ∧ strContainsSub m "F" = true))
    ∧ (demoLookup "tokyo").map (fun d => d.tempCelsius) = some 20
    ∧ roundCtoF 20 = 68 := by
  refine ⟨rfl, ⟨_, rfl, ?_, ?_, ⟨_, rfl, ?_, ?_⟩⟩, ?_, ?_⟩ <;> rfl

/-! ## C5 — validateConfig is never consulted by executeTool -/

/-- Helper: the pixabay search execute never rejects — every branch of its
body (unconfigured key, fetch throw, HTTP error, store failure, success)
returns a result object. -/
theorem pixabay_run_always_ok (ctx : PluginContext) (params : Value) (w : World) :
    ∃ v, ((createSearchPixabayTool ctx).run params w).1 = Except.ok v := by
  unfold createSearchPixabayTool
  dsimp only
  split
  · exact ⟨_, rfl⟩
  · split
    · exact ⟨_, rfl⟩
    · exact ⟨_, rfl⟩
    · split
      · exact ⟨_, rfl⟩
      · exact ⟨_, rfl⟩

/-- C5: executeTool never invokes validateConfig — over any registry,
replacing every plugin's validateConfig by an arbitrary other validator
leaves every executeTool outcome unchanged; the pixabay validator does
reject defaultPerPage = 100 (outside 3..20) and is the validator the
pixabay export carries; and yet executeTool on pixabay search_images with
that rejected config (and the API key set) still reaches tool execution
and returns a success value for every world. -/
theorem executeTool_ignores_validateConfig :
    (∀ (plugins : List PluginExport)
       (vmap : PluginExport → Option (Value → Option String))
       (opts : ExecuteToolOptions) (w : World) (log : Log),
      executeToolIn (plugins.map (fun p => { p with validateConfig := vmap p })) opts w log
        = executeToolIn plugins opts w log)
    ∧ pixabayValidateConfig (.vObj [("defaultPerPage", .vNum 100)])
        = some "defaultPerPage doit etre entre 3 et 20"
    ∧ pixabayPlugin.validateConfig = some pixabayValidateConfig
    ∧ (∀ (w : World) (log : Log), ∃ v,
        (executeTool ⟨.vStr "pixabay", .vStr "search_images",
          .vObj [("q", .vStr "cats")], .vObj [("PIXABAY_API_KEY", .vStr "k")],
          .vObj [("defaultPerPage", .vNum 100)]⟩ w log).1 = Except.ok v) := by
  refine ⟨?_, rfl, rfl, ?_⟩
  · intro plugins vmap opts w log
    have hfind : ∀ (ps : List PluginExport),
        getPluginIn (ps.map (fun p => { p with validateConfig := vmap p })) opts.pluginId
          = Option.map (fun p => { p with validateConfig := vmap p })
              (getPluginIn ps opts.pluginId) := by
      intro ps
      induction ps with
      | nil => rfl
      | cons p t ih =>
          simp only [List.map_cons, getPluginIn, List.find?] at ih ⊢
          cases h : jsEqStrV p.manifest.id opts.pluginId with
          | true => rfl
          | false => exact ih
    unfold executeToolIn
    rw [hfind plugins]
    cases hgp : getPluginIn plugins opts.pluginId with
    | none => rfl
    | some plugin => rfl
  · intro w log
    obtain ⟨v, hv⟩ := pixabay_run_always_ok
      (mkContext (.vStr "pixabay") (.vObj [("PIXABAY_API_KEY", .vStr "k")])
        (.vObj [("defaultPerPage", .vNum 100)]) w.now)
      (.vObj [("q", .vStr "cats")]) w
    refine ⟨v, ?_⟩
    show Except.mapError ExecError.thrown
      ((createSearchPixabayTool
        (mkContext (.vStr "pixabay") (.vObj [("PIXABAY_API_KEY", .vStr "k")])
          (.vObj [("defaultPerPage", .vNum 100)]) w.now)).run
        (.vObj [("q", .vStr "cats")]) w).1 = Except.ok v
    rw [hv]
    rfl

/-! ## C6 — POST /api/execute contract -/

/-- C6: on a JSON object body, the handler answers 400 with the fixed
error object — leaving the log untouched and never reaching executeTool —
whenever pluginId or toolId is absent (or falsy); otherwise it invokes
executeTool on the body's ids with params/env/config defaulted to the
empty object, answering 200 with success true and the result, or 500 with
success false and the thrown message (execResponse renders exactly those
two shapes). -/
theorem post_execute_contract (fs : List (String × Value)) (w : World) (log : Log) :
    ((jsFalsyOpt (objGet fs "pluginId") ∨ jsFalsyOpt (objGet fs "toolId")) →
      POST (.jsonBody (.vObj fs)) w log = ({ status := 400, body := badRequestBody }, log))
    ∧ (∀ pid tid, objGet fs "pluginId" = some pid → jsTruthy pid = true →
        objGet fs "toolId" = some tid → jsTruthy tid = true →
        (POST (.jsonBody (.vObj fs)) w log).1 =
          execResponse (executeTool
            { pluginId := pid, toolId := tid,
              params := jsOrD (objGet fs "params") (.vObj []),
              env := jsOrD (objGet fs "env") (.vObj []),
              config := jsOrD (objGet fs "config") (.vObj []) } w log).1) := by
  constructor
  · intro h
    have hb : (jsFalsyOpt (objGet fs "pluginId") || jsFalsyOpt (objGet fs "toolId")) = true := by
      rcases h with h | h <;> simp [h]
    unfold POST
    dsimp only [Value.getProp]
    rw [hb]
    rfl
  · intro pid tid h1 h2 h3 h4
    have hb : (jsFalsyOpt (objGet fs "pluginId") || jsFalsyOpt (objGet fs "toolId")) = false := by
      simp [h1, h3, jsFalsyOpt, jsTruthyOpt, h2, h4]
    unfold POST
    dsimp only [Value.getProp]
    rw [hb, h1, h3]
    simp only [Option.getD_some]
    cases hr : (executeTool
        { pluginId := pid, toolId := tid,
          params := jsOrD (objGet fs "params") (.vObj []),
          env := jsOrD (objGet fs "env") (.vObj []),
          config := jsOrD (objGet fs "config") (.vObj []) } w log).1 with
    | ok v => simp [execResponse]
    | error e => simp [execResponse]

/-- Witness for C6: both branches at concrete bodies. -/
theorem post_execute_contract_witness :
    POST (.jsonBody (.vObj [("pluginId", .vStr "weather")])) w0 []
      = ({ status := 400, body := badRequestBody }, [])
    ∧ (POST (.jsonBody (.vObj [("pluginId", .vStr "weather"),
        ("toolId", .vStr "get_weather")])) w0 []).1
      = execResponse (executeTool
          { pluginId := .vStr "weather", toolId := .vStr "get_weather",
            params := jsOrD (objGet [("pluginId", .vStr "weather"),
              ("toolId", .vStr "get_weather")] "params") (.vObj []),
            env := jsOrD (objGet [("pluginId", .vStr "weather"),
              ("toolId", .vStr "get_weather")] "env") (.vObj []),
            config := jsOrD (objGet [("pluginId", .vStr "weather"),
              ("toolId", .vStr "get_weather")] "config") (.vObj []) } w0 []).1 := by
  constructor
  · exact (post_execute_contract [("pluginId", .vStr "weather")] w0 []).1 (Or.inr rfl)
  · exact (post_execute_contract [("pluginId", .vStr "weather"),
      ("toolId", .vStr "get_weather")] w0 []).2 (.vStr "weather") (.vStr "get_weather")
      rfl rfl rfl rfl

/-! ## C9 — present-but-falsy ids are rejected like absent ones -/

/-- C9: a body whose pluginId key is present but holds a falsy value (the
empty string, 0, false or null) — or likewise for toolId — gets the same
400 response as an absent key, with the log untouched: executeTool is not
reached. -/
theorem post_falsy_present_ids_rejected (fs : List (String × Value)) (w : World) (log : Log) :
    (∀ pid, objGet fs "pluginId" = some pid → jsTruthy pid = false →
      POST (.jsonBody (.vObj fs)) w log = ({ status := 400, body := badRequestBody }, log))
    ∧ (∀ tid, objGet fs "toolId" = some tid → jsTruthy tid = false →
      POST (.jsonBody (.vObj fs)) w log = ({ status := 400, body := badRequestBody }, log)) := by
  constructor
  · intro pid h1 h2
    have hb : (jsFalsyOpt (objGet fs "pluginId") || jsFalsyOpt (objGet fs "toolId")) = true := by
      simp [h1, jsFalsyOpt, jsTruthyOpt, h2]
    unfold POST
    dsimp only [Value.getProp]
    rw [hb]
    rfl
  · intro tid h1 h2
    have hb : (jsFalsyOpt (objGet fs "pluginId") || jsFalsyOpt (objGet fs "toolId")) = true := by
      simp [h1, jsFalsyOpt, jsTruthyOpt, h2]
    unfold POST
    dsimp only [Value.getProp]
    rw [hb]
    rfl

/-- Witness for C9: empty-string pluginId and null toolId, both with the
keys present in the body. -/
theorem post_falsy_present_ids_rejected_witness :
    POST (.jsonBody (.vObj [("pluginId", .vStr ""), ("toolId", .vStr "get_weather")])) w0 []
      = ({ status := 400, body := badRequestBody }, [])
    ∧ POST (.jsonBody (.vObj [("pluginId", .vStr "weather"), ("toolId", .vNull)])) w0 []
      = ({ status := 400, body := badRequestBody }, []) := by
  constructor
  · exact (post_falsy_present_ids_rejected
      [("pluginId", .vStr ""), ("toolId", .vStr "get_weather")] w0 []).1 (.vStr "") rfl rfl
  · exact (post_falsy_present_ids_rejected
      [("pluginId", .vStr "weather"), ("toolId", .vNull)] w0 []).2 .vNull rfl rfl

/-! ## C7 — per-invocation isolation -/

/-- C7: the execution context is built fresh per call from that call's own
supplied values (its pluginConfig and env fields are exactly the supplied
config and env); the result component of executeTool is a function of the
options and the world only — it is invariant under the accumulated console
state; hence two calls composed sequentially in either role produce
exactly the results each would produce alone (no cross-talk through the
shared console state, and none through anything else: the embedding is
pure and the static registry immutable). -/
theorem executeTool_isolation :
    (∀ (pluginId env config : Value) (now : Nat),
      (mkContext pluginId env config now).pluginConfig = config
      ∧ (mkContext pluginId env config now).env = env)
    ∧ (∀ (opts : ExecuteToolOptions) (w : World) (log1 log2 : Log),
        (executeTool opts w log1).1 = (executeTool opts w log2).1)
    ∧ (∀ (o1 o2 : ExecuteToolOptions) (w : World) (log : Log),
        (executeTool o2 w (executeTool o1 w log).2).1 = (executeTool o2 w log).1) := by
  have key : ∀ (opts : ExecuteToolOptions) (w : World) (log1 log2 : Log),
      (executeTool opts w log1).1 = (executeTool opts w log2).1 := by
    intro opts w log1 log2
    unfold executeTool executeToolIn
    cases getPluginIn loadedPlugins opts.pluginId with
    | none => rfl
    | some plugin =>
        dsimp only
        cases plugin.tools.find? (fun t => jsEqStrV t.id opts.toolId) with
        | none => rfl
        | some toolDef =>
            dsimp only
            cases hg : gatedOff toolDef opts.env <;> simp [hg]
  exact ⟨fun pid env cfg now => ⟨rfl, rfl⟩, key, fun o1 o2 w log => key o2 w _ log⟩

/-! ## C8 — the registry holds exactly the weather and pixabay plugins -/

/-- C8: the static registry is exactly the weather and pixabay exports, so
getPlugins lists exactly those two; every other plugin id is absent from
the registry and makes executeTool fail with the plugin-not-found error
for any tool id, params, env, config, world and log; in particular the
fetch plugin's id is not reachable through the registry although the
plugin is defined in the sources. -/
theorem registry_exactly_weather_and_pixabay :
    loadedPlugins = [weatherPlugin, pixabayPlugin]
    ∧ getPlugins.length = 2
    ∧ getPlugins.map (fun p => p.id) = ["weather", "pixabay"]
    ∧ (∀ pid : String, pid ≠ "weather" → pid ≠ "pixabay" →
        getPlugin (.vStr pid) = none
        ∧ ∀ (tid params env config : Value) (w : World) (log : Log),
            executeTool ⟨.vStr pid, tid, params, env, config⟩ w log
              = (.error (.pluginNotFound (.vStr pid)), log))
    ∧ fetchPlugin.manifest.id = "fetch"
    ∧ (getPlugins.map (fun p => p.id)).contains fetchPlugin.manifest.id = false := by
  refine ⟨rfl, rfl, rfl, ?_, rfl, rfl⟩
  intro pid h1 h2
  have hw : jsEqStrV "weather" (.vStr pid) = false := by
    simp [jsEqStrV]
    exact fun hh => h1 hh.symm
  have hp : jsEqStrV "pixabay" (.vStr pid) = false := by
    simp [jsEqStrV]
    exact fun hh => h2 hh.symm
  have hget : getPlugin (.vStr pid) = none := by
    unfold getPlugin getPluginIn loadedPlugins
    simp [List.find?, weatherPlugin, pixabayPlugin, weatherManifest, pixabayManifest, hw, hp]
  refine ⟨hget, ?_⟩
  intro tid params env config w log
  unfold getPlugin at hget
  unfold executeTool executeToolIn
  dsimp only
  rw [hget]

/-- Witness for C8: the fetch plugin's own id resolves to nothing and its
execution fails with plugin-not-found. -/
theorem registry_exactly_weather_and_pixabay_witness :
    getPlugin (.vStr "fetch") = none
    ∧ executeTool ⟨.vStr "fetch", .vStr "fetch_url", .vObj [], .vObj [], .vObj []⟩ w0 []
        = (.error (.pluginNotFound (.vStr "fetch")), []) := by
  have h := (registry_exactly_weather_and_pixabay).2.2.2.1 "fetch"
    (by decide) (by decide)
  exact ⟨h.1, h.2 (.vStr "fetch_url") (.vObj []) (.vObj []) (.vObj []) w0 []⟩

/-! ## C10 — totality of the weather execute (corrected) -/

/-- Counterexample to C10 as stated: with the context executeTool builds
for config defaultCity = true (a boolean, allowed by ToolConfigValues) and
a params object without a city, the resolved city is the boolean, and
calling toLowerCase on it throws a TypeError: execute rejects instead of
returning a WeatherResult — both at the tool level and through
executeTool. -/
theorem weather_execute_nonstring_default_city_rejects :
    ((createGetWeatherTool (mkContext (.vStr "weather") (.vObj [])
        (.vObj [("defaultCity", .vBool true)]) 0)).run (.vObj []) w0).1
      = Except.error "city.toLowerCase is not a function"
    ∧ (executeTool ⟨.vStr "weather", .vStr "get_weather", .vObj [],
        .vObj [], .vObj [("defaultCity", .vBool true)]⟩ w0 []).1
      = .error (.thrown "city.toLowerCase is not a function") :=
  ⟨rfl, rfl⟩

/-- Helper: every COUNTRY_MAP key is also a DEMO_WEATHER key, so a city
missing from the demo table is missing from the country table. -/
theorem demoLookup_none_country_none (k : String) (h : demoLookup k = none) :
    countryLookup k = none := by
  unfold demoLookup at h
  rw [Option.map_eq_none'] at h
  rw [List.find?_eq_none] at h
  have h1 : ("paris" == k) = false := by
    simpa using h ("paris", ⟨"Partiellement nuageux", 18, 65, 12⟩) (by simp [DEMO_WEATHER])
  have h2 : ("london" == k) = false := by
    simpa using h ("london", ⟨"Pluvieux", 14, 80, 20⟩) (by simp [DEMO_WEATHER])
  have h3 : ("new york" == k) = false := by
    simpa using h ("new york", ⟨"Ensoleille", 22, 55, 8⟩) (by simp [DEMO_WEATHER])
  have h4 : ("tokyo" == k) = false := by
    simpa using h ("tokyo", ⟨"Nuageux", 20, 70, 10⟩) (by simp [DEMO_WEATHER])
  have h5 : ("sydney" == k) = false := by
    simpa using h ("sydney", ⟨"Ensoleille", 25, 50, 15⟩) (by simp [DEMO_WEATHER])
  unfold countryLookup COUNTRY_MAP
  simp [List.find?, h1, h2, h3, h4, h5]

/-- C10 as amended: for every context whose resolved default city (config
defaultCity, else env.WEATHER_DEFAULT_CITY, else 'Paris') is a string —
in particular any context built from well-typed string-valued config/env —
and every params object whose city is a string or absent, the weather
execute returns a WeatherResult without failing; an absent (or empty)
city falls back to the resolved default city; a non-empty city missing
from the demo table (compared lowercased) produces the default demo entry
(20 deg C, condition 'Variable', Fahrenheit 68) with country 'Inconnu'. -/
theorem weather_execute_total_amended
    (ctx : PluginContext) (fs : List (String × Value)) (w : World)
    (hd : ∃ d, weatherDefaultCity ctx.pluginConfig ctx.env = .vStr d)
    (hcity : objGet fs "city" = none ∨ ∃ s, objGet fs "city" = some (.vStr s)) :
    (∃ v, ((createGetWeatherTool ctx).run (.vObj fs) w).1 = Except.ok v)
    ∧ (∀ d, weatherDefaultCity ctx.pluginConfig ctx.env = .vStr d →
        objGet fs "city" = none →
        ((createGetWeatherTool ctx).run (.vObj fs) w).1
          = .ok (getWeatherResult (weatherUnitsIsF ctx.pluginConfig) d))
    ∧ (∀ s, objGet fs "city" = some (.vStr s) → s ≠ "" →
        ((createGetWeatherTool ctx).run (.vObj fs) w).1
          = .ok (getWeatherResult (weatherUnitsIsF ctx.pluginConfig) s)
        ∧ (demoLookup (jsToLower s) = none →
            ∃ gs, getWeatherResult (weatherUnitsIsF ctx.pluginConfig) s = .vObj gs
              ∧ objGet gs "country" = some (.vStr "Inconnu")
              ∧ objGet gs "condition" = some (.vStr "Variable")
              ∧ objGet gs "temperature" = some (.vNum
                  (if weatherUnitsIsF ctx.pluginConfig then 68 else 20)))) := by
  obtain ⟨d, hdef⟩ := hd
  refine ⟨?_, ?_, ?_⟩
  · unfold createGetWeatherTool
    dsimp only [Value.getProp]
    rcases hcity with hnone | ⟨s, hsome⟩
    · rw [hnone, show ∀ x, jsOrD none x = x from fun _ => rfl, hdef]
      exact ⟨_, rfl⟩
    · rw [hsome]
      by_cases hs : s = ""
      · subst hs
        rw [show ∀ x, jsOrD (some (Value.vStr "")) x = x from fun _ => rfl, hdef]
        exact ⟨_, rfl⟩
      · rw [show jsOrD (some (Value.vStr s)) (weatherDefaultCity ctx.pluginConfig ctx.env)
            = Value.vStr s by simp [jsOrD, jsTruthy, hs]]
        exact ⟨_, rfl⟩
  · intro d' hdef' hnone
    unfold createGetWeatherTool
    dsimp only [Value.getProp]
    rw [hnone, show ∀ x, jsOrD none x = x from fun _ => rfl, hdef']
  · intro s hsome hs
    constructor
    · unfold createGetWeatherTool
      dsimp only [Value.getProp]
      rw [hsome, show jsOrD (some (Value.vStr s)) (weatherDefaultCity ctx.pluginConfig ctx.env)
            = Value.vStr s by simp [jsOrD, jsTruthy, hs]]
    · intro hdemo
      have hcountry := demoLookup_none_country_none _ hdemo
      unfold getWeatherResult
      dsimp only
      rw [hdemo, hcountry]
      refine ⟨_, rfl, ?_, ?_, ?_⟩
      · rfl
      · rfl
      · cases weatherUnitsIsF ctx.pluginConfig <;> rfl

/-- Witness for the amended C10: the defaults chain resolves to 'Paris'
and the unknown city 'Gotham' gets the default entry with country
'Inconnu'. -/
theorem weather_execute_total_amended_witness :
    (((createGetWeatherTool (mkContext (.vStr "weather") (.vObj []) (.vObj []) 0)).run
        (.vObj [("city", .vStr "Gotham")]) w0).1
      = .ok (getWeatherResult
          (weatherUnitsIsF (mkContext (.vStr "weather") (.vObj []) (.vObj []) 0).pluginConfig)
          "Gotham"))
    ∧ (∃ gs, getWeatherResult
          (weatherUnitsIsF (mkContext (.vStr "weather") (.vObj []) (.vObj []) 0).pluginConfig)
          "Gotham" = .vObj gs
        ∧ objGet gs "country" = some (.vStr "Inconnu")
        ∧ objGet gs "condition" = some (.vStr "Variable")
        ∧ objGet gs "temperature" = some (.vNum
            (if weatherUnitsIsF
                (mkContext (.vStr "weather") (.vObj []) (.vObj []) 0).pluginConfig
             then 68 else 20))) := by
  have h := weather_execute_total_amended
    (mkContext (.vStr "weather") (.vObj []) (.vObj []) 0)
    [("city", .vStr "Gotham")] w0 ⟨"Paris", rfl⟩ (Or.inr ⟨"Gotham", rfl⟩)
  have h2 := h.2.2 "Gotham" rfl (by decide)
  exact ⟨h2.1, h2.2 rfl⟩
